import Mathlib

/-!
Verification development for the demo credential-issuer core.

The Go sources are embedded shallowly:

* `identity` package (`Identity`, `New`, `init`, `setupGenesisState`,
  `AddClaim`, `GetClaim`, `GetIdentity`, `GetRevocationStatus`) — pure
  functions with explicit state passing;
* `state` package (`IdentityState`, `AddClaimToTree`, `AddClaimToDB`,
  `GetStateHash`, `SaveIdentity`) — a record of three sparse Merkle trees
  plus the claim-record store;
* `blockchain` package (`PublisherServer.UpdateState`,
  `getStatePayload`, `sendTransaction`, `WaitTransaction`) — functions
  over an explicit chain oracle, with the sequence of chain interactions
  returned as an explicit trace;
* `http` package (`Client.Get`, `Client.Post`, `executeRequest`).

External libraries (Poseidon hashing, Baby Jubjub keys, the genesis
identifier derivation of go-iden3-core) are parameters of the embedding,
bundled in `ExtLib`; every definition stays executable, and concrete
witnesses instantiate `ExtLib` with simple computable functions.

Machine integers (`*big.Int`, `uint64`) are modelled as `Nat`: none of
the embedded code paths overflow or depend on a fixed word width.
Fallible Go code returns `Except`; Go methods that mutate their receiver
in place return the post-call state explicitly, on the error paths too.
-/

/-- Error kinds of the engine, matching the spec's flat taxonomy and the
error returns of the Go sources (duplicate key, missing key, exceeded
tree depth, persistence failure, schema rejection). -/
inductive Err where
  | keyExists : Err
  | keyNotFound : Err
  | depthExceeded : Err
  | storeFail : Err
  | schemaInvalid : Err
deriving DecidableEq, Repr

/-- Decidable equality of fallible results, used to evaluate the
embedding at concrete inputs. -/
instance exceptDecEq {ε α : Type} [DecidableEq ε] [DecidableEq α] :
    DecidableEq (Except ε α) := fun x y =>
  match x, y with
  | .ok a, .ok b => if h : a = b then isTrue (by rw [h]) else isFalse (by simp [h])
  | .error e, .error f => if h : e = f then isTrue (by rw [h]) else isFalse (by simp [h])
  | .ok _, .error _ => isFalse (by simp)
  | .error _, .ok _ => isFalse (by simp)

/-- Bit `i` of a key: keys address leaves by their low-order bits, least
significant bit first, as in go-merkletree-sql. -/
def testBit (k i : Nat) : Bool := k / 2 ^ i % 2 = 1

/-- Node of a sparse Merkle tree: `empty`, `leaf key value`, or
`middle left right`, as in go-merkletree-sql / spec section 3. -/
inductive Node where
  | empty : Node
  | leaf (key value : Nat) : Node
  | middle (left right : Node) : Node
deriving DecidableEq, Repr

/-- Node hash (spec section 3): empty hashes to 0, a leaf to
`H(key, value, 1)`, a middle node to `H(left_hash, right_hash)`.
`H` abstracts Poseidon. -/
def Node.hashOf (H : List Nat → Nat) : Node → Nat
  | .empty => 0
  | .leaf k v => H [k, v, 1]
  | .middle l r => H [Node.hashOf H l, Node.hashOf H r]

/-- Two conflicting leaves on one path split into middle nodes descending
until the first differing key bit; `fuel` bounds the descent by the
remaining tree depth (exceeding it is the `DepthExceeded` failure). -/
def splitLeaves (k1 v1 k2 v2 : Nat) : Nat → Nat → Except Err Node
  | 0, _ => .error .depthExceeded
  | fuel + 1, lvl =>
    match testBit k1 lvl, testBit k2 lvl with
    | true, false => .ok (.middle (.leaf k2 v2) (.leaf k1 v1))
    | false, true => .ok (.middle (.leaf k1 v1) (.leaf k2 v2))
    | true, true => (splitLeaves k1 v1 k2 v2 fuel (lvl + 1)).map (fun n => .middle .empty n)
    | false, false => (splitLeaves k1 v1 k2 v2 fuel (lvl + 1)).map (fun n => .middle n .empty)

/-- Insertion into a sparse Merkle tree node at level `lvl` with `fuel`
remaining levels; fails `keyExists` on a duplicate key and
`depthExceeded` past the fixed depth, as the library's `Add` does. -/
def Node.addAt (k v : Nat) : Nat → Nat → Node → Except Err Node
  | 0, _, _ => .error .depthExceeded
  | _ + 1, _, .empty => .ok (.leaf k v)
  | fuel + 1, lvl, .leaf k0 v0 =>
    if k0 = k then .error .keyExists
    else splitLeaves k0 v0 k v (fuel + 1) lvl
  | fuel + 1, lvl, .middle l r =>
    if testBit k lvl then (Node.addAt k v fuel (lvl + 1) r).map (fun n => .middle l n)
    else (Node.addAt k v fuel (lvl + 1) l).map (fun n => .middle n r)

/-- Lookup of a key in a sparse Merkle tree node. -/
def Node.getAt (k : Nat) : Nat → Node → Option Nat
  | _, .empty => none
  | _, .leaf k0 v0 => if k0 = k then some v0 else none
  | lvl, .middle l r =>
    if testBit k lvl then Node.getAt k (lvl + 1) r else Node.getAt k (lvl + 1) l

/-- A sparse Merkle tree of fixed depth, as created by the `state`
package constructors (`NewClaims` / `NewRevocations` / `NewRoots`). -/
structure MerkleTree where
  depth : Nat
  node : Node
deriving DecidableEq, Repr

/-- MerkleTree insertion (`merkletree.Add`). -/
def MerkleTree.add (t : MerkleTree) (k v : Nat) : Except Err MerkleTree :=
  (Node.addAt k v t.depth 0 t.node).map (fun n => { t with node := n })

/-- Current root hash of the tree (`MerkleTree.Root()`). -/
def MerkleTree.root (t : MerkleTree) (H : List Nat → Nat) : Nat := t.node.hashOf H

/-- MerkleTree lookup. -/
def MerkleTree.get (t : MerkleTree) (k : Nat) : Option Nat := Node.getAt k 0 t.node

/-- External library functions the core consumes, as parameters:
`H` is Poseidon over BN254 (go-iden3-crypto), `pub` maps a Baby Jubjub
secret key to its public point, `idGenesis` is
`core.IdGenesisFromIdenState(typ, state)`. -/
structure ExtLib where
  H : List Nat → Nat
  pub : Nat → Nat × Nat
  idGenesis : Nat → Nat → Nat

/-- The eight-slot core claim: index slots `i0..i3`, value slots
`v0..v3`, and the revocation-nonce header field. -/
structure CoreClaim where
  i0 : Nat
  i1 : Nat
  i2 : Nat
  i3 : Nat
  v0 : Nat
  v1 : Nat
  v2 : Nat
  v3 : Nat
  revNonce : Nat
deriving DecidableEq, Repr

/-- Claim index hash `h_index = Poseidon(i0..i3)` (spec section 3). -/
def hIndex (E : ExtLib) (c : CoreClaim) : Nat := E.H [c.i0, c.i1, c.i2, c.i3]

/-- Claim value hash `h_value = Poseidon(v0..v3)` (spec section 3). -/
def hValue (E : ExtLib) (c : CoreClaim) : Nat := E.H [c.v0, c.v1, c.v2, c.v3]

/-- The fixed auth-claim schema hash constant
(`schema.AuthBJJCredentialHash`), as a number. -/
def authBJJSchemaHash : Nat := 0xca938857241db9451ea329256b9c06e5

/-- Modelled from the spec: `claim.NewAuthClaim` constructs the auth
claim embedding the public point `(pk.x, pk.y)` into index slots with
revocation nonce 0 (spec section 4.6, genesis step 2; the `claim`
package is outside `src/`). -/
def newAuthClaim (pk : Nat × Nat) (schemaHash : Nat) : CoreClaim :=
  { i0 := schemaHash, i1 := 0, i2 := pk.1, i3 := pk.2
    v0 := 0, v1 := 0, v2 := 0, v3 := 0, revNonce := 0 }

/-- Input of claim encoding, mirroring `claim.CoreClaimData` as built in
`Identity.AddClaim` from the request and the processed schema slots. -/
structure CoreClaimData where
  encodedSchema : Nat
  slotIndexA : Nat
  slotIndexB : Nat
  slotValueA : Nat
  slotValueB : Nat
  subjectId : Nat
  expiration : Nat
  version : Nat
  nonce : Nat
  subjectPosition : String
deriving DecidableEq, Repr

/-- Modelled from the spec: `claim.GenerateCoreClaim` packs schema hash,
subject id (by subject position), parsed data slots, and the
expiration / version / revocation-nonce header into the eight slots
(`claim` package outside `src/`; spec section 4.4). The bit-exact header
packing is abstracted into a header value carried in slot `v0`; no claim
under verification depends on the packing. -/
def generateCoreClaim (d : CoreClaimData) : CoreClaim :=
  { i0 := d.encodedSchema
    i1 := if d.subjectPosition = "index" then d.subjectId else 0
    i2 := d.slotIndexA
    i3 := d.slotIndexB
    v0 := d.nonce + 2 ^ 64 * d.expiration + 2 ^ 128 * d.version
    v1 := if d.subjectPosition = "value" then d.subjectId else 0
    v2 := d.slotValueA
    v3 := d.slotValueB
    revNonce := d.nonce }

/-- The signature proof attached to an issued credential: the issuer
data carries the auth claim and the revocation-status URL set by
`Identity.AddClaim`; the signature bytes themselves are abstracted. -/
structure SignatureProof where
  issuerAuthClaimId : Nat
  revocationStatusUrl : String
deriving DecidableEq, Repr

/-- The claim record (database shape): the fields of `claim.Claim` that
the verified claims observe. -/
structure ClaimModel where
  id : Nat
  revNonce : Nat
  identifier : Nat
  issuer : Nat
  schemaUrl : String
  schemaType : String
  credentialStatusUrl : String
  sigProof : Option SignatureProof
  mtpProof : Bool
  data : String
deriving DecidableEq, Repr

/-- The revocation-status URL format used by `Identity.AddClaim`
(`"%s/api/v1/claims/revocation/status/%d"`). -/
def mkRevocationStatusUrl (baseUrl : String) (nonce : Nat) : String :=
  baseUrl ++ "/api/v1/claims/revocation/status/" ++ toString nonce

/-- Modelled from the spec: `claim.CoreClaimToClaimModel` builds the
record identified by the claim's `h_index`, carrying the revocation
nonce and the schema url / type (`claim` package outside `src/`). -/
def coreClaimToClaimModel (E : ExtLib) (c : CoreClaim) (url typ : String) : ClaimModel :=
  { id := hIndex E c, revNonce := c.revNonce, identifier := 0, issuer := 0
    schemaUrl := url, schemaType := typ, credentialStatusUrl := ""
    sigProof := none, mtpProof := false, data := "" }

/-- Modelled from the spec: `claim.CreateCredentialStatus` builds the
credential-status descriptor pointing at the issuer revocation endpoint
for the claim's own nonce (`claim` package outside `src/`). -/
def createCredentialStatus (baseUrl : String) (nonce : Nat) : String :=
  mkRevocationStatusUrl baseUrl nonce

/-- Modelled from the spec: `claim.SignClaimEntry` produces the
signature proof whose issuer data references the auth claim; the
revocation-status URL field is filled afterwards by `Identity.AddClaim`
(`claim` package outside `src/`). -/
def signClaimEntry (authModel : ClaimModel) : SignatureProof :=
  { issuerAuthClaimId := authModel.id, revocationStatusUrl := "" }

/-- The process state owned by the engine: the three sparse Merkle trees
(Claims, Revocations, Roots), the claim-record store kept by the
`Claims` component, and the persisted identifier
(`state.IdentityState`). -/
structure IdentityState where
  claimsTree : MerkleTree
  revTree : MerkleTree
  rootsTree : MerkleTree
  claimsDb : List (Nat × ClaimModel)
  savedIdentifier : Option Nat
deriving DecidableEq, Repr

/-- Fresh state over an empty store (`state.NewIdentityState`): three
empty trees of the configured depth. -/
def newIdentityState (treeDepth : Nat) : IdentityState :=
  { claimsTree := ⟨treeDepth, .empty⟩, revTree := ⟨treeDepth, .empty⟩
    rootsTree := ⟨treeDepth, .empty⟩, claimsDb := [], savedIdentifier := none }

/-- State hash (`IdentityState.GetStateHash`):
`merkletree.HashElems(claims_root, revocations_root, roots_root)`. -/
def IdentityState.getStateHash (E : ExtLib) (s : IdentityState) : Nat :=
  E.H [s.claimsTree.root E.H, s.revTree.root E.H, s.rootsTree.root E.H]

/-- Claim insertion into the Claims tree
(`IdentityState.AddClaimToTree`, which calls only
`Claims.SaveClaimMT`): computes `(h_index, h_value)` and inserts into
the Claims tree; neither the Revocations nor the Roots tree is part of
the `Claims` component, so neither is touched. -/
def IdentityState.addClaimToTree (E : ExtLib) (s : IdentityState) (c : CoreClaim) :
    Except Err IdentityState :=
  (s.claimsTree.add (hIndex E c) (hValue E c)).map
    (fun t => { s with claimsTree := t })

/-- Persisting a claim record (`IdentityState.AddClaimToDB` /
`Claims.SaveClaimDB`); `dbOk` injects the outcome of the store write,
`false` modelling a persistence failure. -/
def IdentityState.addClaimToDb (s : IdentityState) (m : ClaimModel) (dbOk : Bool) :
    Except Err IdentityState :=
  if dbOk then .ok { s with claimsDb := (m.id, m) :: s.claimsDb }
  else .error .storeFail

/-- Persisting the identifier (`IdentityState.SaveIdentity`); `ok`
injects the outcome of the store write. -/
def IdentityState.saveIdentity (s : IdentityState) (idf : Nat) (ok : Bool) :
    Except Err IdentityState :=
  if ok then .ok { s with savedIdentifier := some idf }
  else .error .storeFail

/-- Record lookup (`Claims.GetClaim`). -/
def IdentityState.getClaimDb (s : IdentityState) (k : Nat) : Except Err ClaimModel :=
  match s.claimsDb.lookup k with
  | some m => .ok m
  | none => .error .keyNotFound

/-- Modelled from the spec: `revoke(nonce, version)` inserts the nonce
into the Revocations tree with the version as value, failing on a
duplicate (spec section 4.5; the revocation handler is outside `src/`).
Returns the post-call state together with the result, the state
unchanged on failure. -/
def IdentityState.revoke (s : IdentityState) (nonce version : Nat) :
    IdentityState × Except Err Unit :=
  match s.revTree.add nonce version with
  | .ok t => ({ s with revTree := t }, .ok ())
  | .error e => (s, .error e)

/-- The issuer identity (`identity.Identity`): secret key, identifier,
the auth claim's `h_index`, and the base URL embedded into issued
credentials. -/
structure Identity where
  sk : Nat
  identifier : Nat
  authClaimId : Nat
  baseUrl : String
deriving DecidableEq, Repr

/-- The default identifier type tag (`core.TypeDefault`). -/
def typeDefault : Nat := 0

/-- Genesis setup (`Identity.setupGenesisState`): build the auth claim
from the public key and the fixed schema hash, insert it into the
Claims tree, read the state hash, and derive the genesis identifier
via `core.IdGenesisFromIdenState(core.TypeDefault, state)`. -/
def setupGenesisState (E : ExtLib) (sk : Nat) (s : IdentityState) :
    Except Err (Nat × CoreClaim × IdentityState) := do
  let schemaHash := authBJJSchemaHash
  let authClaim := newAuthClaim (E.pub sk) schemaHash
  let s1 ← s.addClaimToTree E authClaim
  let currState := s1.getStateHash E
  let identifier := E.idGenesis typeDefault currState
  .ok (identifier, authClaim, s1)

/-- The auth-claim schema constants (`schema.AuthBJJCredentialURL`,
`schema.AuthBJJCredential`). -/
def authBJJCredentialUrl : String :=
  "https://schema.iden3.io/core/jsonld/auth.jsonld"

def authBJJCredentialType : String := "AuthBJJCredential"

/-- Identity initialization (`Identity.init`): genesis setup, recording
the auth claim's `h_index`, then building the auth-claim record (public
point data, issuer fields, Merkle proof) and persisting it. -/
def identityInit (E : ExtLib) (sk : Nat) (baseUrl : String) (s : IdentityState)
    (dbOk : Bool) : Except Err (Identity × IdentityState) := do
  let (identifier, authClaim, s1) ← setupGenesisState E sk s
  let authClaimId := hIndex E authClaim
  let m0 := coreClaimToClaimModel E authClaim authBJJCredentialUrl authBJJCredentialType
  let pk := E.pub sk
  let m : ClaimModel :=
    { m0 with
      data := "x=" ++ toString pk.1 ++ ";y=" ++ toString pk.2
      issuer := identifier, id := authClaimId, identifier := identifier
      mtpProof := true }
  let s2 ← s1.addClaimToDb m dbOk
  .ok ({ sk := sk, identifier := identifier, authClaimId := authClaimId
         baseUrl := baseUrl }, s2)

/-- Identity construction (`identity.New`): initialization followed by
persisting the identifier. -/
def identityNew (E : ExtLib) (sk : Nat) (baseUrl : String) (s : IdentityState)
    (dbOk saveOk : Bool) : Except Err (Identity × IdentityState) := do
  let (iden, s1) ← identityInit E sk baseUrl s dbOk
  let s2 ← s1.saveIdentity iden.identifier saveOk
  .ok (iden, s2)

/-- The claim-issuance request (`issuer_contract.CreateClaimRequest`). -/
structure CreateClaimRequest where
  schemaUrl : String
  schemaType : String
  identifier : Nat
  expiration : Nat
  version : Nat
  revNonce : Nat
  subjectPosition : String
  data : String
deriving DecidableEq, Repr

/-- The result of `schema.Process`: the parsed data slots and the
encoded schema hash. The schema processor performs network and
validation work outside the core, so its outcome is passed in. -/
structure ProcResult where
  encodedSchema : Nat
  slotIndexA : Nat
  slotIndexB : Nat
  slotValueA : Nat
  slotValueB : Nat
deriving DecidableEq, Repr

/-- The `CoreClaimData` that `Identity.AddClaim` assembles from the
request and the processed schema result. -/
def coreClaimDataOf (pr : ProcResult) (req : CreateClaimRequest) : CoreClaimData :=
  { encodedSchema := pr.encodedSchema
    slotIndexA := pr.slotIndexA, slotIndexB := pr.slotIndexB
    slotValueA := pr.slotValueA, slotValueB := pr.slotValueB
    subjectId := req.identifier, expiration := req.expiration
    version := req.version, nonce := req.revNonce
    subjectPosition := req.subjectPosition }

/-- Claim issuance (`Identity.AddClaim`): process the schema, build the
core claim and its record, attach the credential status and the
auth-claim signature proof with its revocation-status URL, insert into
the Claims tree, persist the record, save the identity, and answer with
the record id. The post-call state is returned on every path: the Go
method mutates its state in place, so a failure after the tree insert
leaves the insert visible. `proc` carries the schema-processor outcome;
`dbOk` / `saveOk` inject the outcomes of the two store writes. -/
def Identity.addClaim (E : ExtLib) (iden : Identity) (s : IdentityState)
    (req : CreateClaimRequest) (proc : Except Err ProcResult)
    (dbOk saveOk : Bool) : Identity × IdentityState × Except Err String :=
  match proc with
  | .error e => (iden, s, .error e)
  | .ok pr =>
    let coreClaim := generateCoreClaim (coreClaimDataOf pr req)
    let m0 := coreClaimToClaimModel E coreClaim req.schemaUrl req.schemaType
    let m1 := { m0 with
                credentialStatusUrl := createCredentialStatus iden.baseUrl m0.revNonce }
    match s.getClaimDb iden.authClaimId with
    | .error e => (iden, s, .error e)
    | .ok authModel =>
      let proof0 := signClaimEntry authModel
      let proof := { proof0 with
                     revocationStatusUrl := mkRevocationStatusUrl iden.baseUrl m1.revNonce }
      let m := { m1 with
                 identifier := iden.identifier, issuer := iden.identifier
                 sigProof := some proof, data := req.data }
      match s.addClaimToTree E coreClaim with
      | .error e => (iden, s, .error e)
      | .ok s1 =>
        match s1.addClaimToDb m dbOk with
        | .error e => (iden, s1, .error e)
        | .ok s2 =>
          match s2.saveIdentity iden.identifier saveOk with
          | .error e => (iden, s2, .error e)
          | .ok s3 => (iden, s3, .ok (toString m.id))

/-- One operator-surface mutation: a claim issuance (with its injected
external outcomes) or a revocation. -/
inductive Step where
  | issue (req : CreateClaimRequest) (proc : Except Err ProcResult) (dbOk saveOk : Bool)
  | revokeNonce (nonce version : Nat)

/-- Running one mutation against the identity and its state, keeping the
post-call state whether or not the call succeeded. -/
def runStep (E : ExtLib) (p : Identity × IdentityState) : Step → Identity × IdentityState
  | .issue req proc dbOk saveOk =>
    let r := Identity.addClaim E p.1 p.2 req proc dbOk saveOk
    (r.1, r.2.1)
  | .revokeNonce n v => (p.1, (p.2.revoke n v).1)

/-- The Groth16 proof triple as passed to the publisher
(`models.ZKProof`, after `ProofToBigInts`): curve points as numbers. -/
structure ZKProof where
  a : Nat × Nat
  b : (Nat × Nat) × (Nat × Nat)
  c : Nat × Nat
deriving DecidableEq, Repr

/-- The state transition (`blockchain.TransitionInfo`). -/
structure TransitionInfo where
  identifier : Nat
  latestState : Nat
  newState : Nat
  isOldStateGenesis : Bool
  proof : ZKProof
deriving DecidableEq, Repr

/-- The ABI call the publisher packs (`ab.Pack("transitState", ...)`):
the method name together with the argument values, in order. -/
structure StatePayload where
  method : String
  id : Nat
  oldState : Nat
  newState : Nat
  isOldStateGenesis : Bool
  proofA : Nat × Nat
  proofB : (Nat × Nat) × (Nat × Nat)
  proofC : Nat × Nat
deriving DecidableEq, Repr

/-- Payload construction (`PublisherServer.getStatePayload`): the `b`
matrix coordinates are swapped pairwise before packing, exactly as in
the source (`proofB := [[b[0][1], b[0][0]], [b[1][1], b[1][0]]]`). -/
def getStatePayload (ti : TransitionInfo) : StatePayload :=
  { method := "transitState"
    id := ti.identifier, oldState := ti.latestState, newState := ti.newState
    isOldStateGenesis := ti.isOldStateGenesis
    proofA := (ti.proof.a.1, ti.proof.a.2)
    proofB := ((ti.proof.b.1.2, ti.proof.b.1.1), (ti.proof.b.2.2, ti.proof.b.2.1))
    proofC := (ti.proof.c.1, ti.proof.c.2) }

/-- Definition following the spec's words, for comparison with the
source's payload: the Groth16 pairing-layout swap
`b' = [[b[0][1], b[0][0]], [b[1][1], b[1][0]]]`. -/
def swapBSpec (b : (Nat × Nat) × (Nat × Nat)) : (Nat × Nat) × (Nat × Nat) :=
  ((b.1.2, b.1.1), (b.2.2, b.2.1))

/-- Publisher error kinds: publishing an unchanged state, or a failing
chain RPC call (named by the failing operation). -/
inductive PubErr where
  | stateUnchanged : PubErr
  | chainRpc (op : String) : PubErr
deriving DecidableEq, Repr

/-- One chain interaction performed by the publisher, recorded in order:
nonce fetch, gas estimation (with the call data), header fetch, tip
query, chain-id query, transaction broadcast (with the call data). -/
inductive ChainOp where
  | pendingNonce : ChainOp
  | estimateGas (payload : StatePayload) : ChainOp
  | headerByNumber : ChainOp
  | suggestGasTip : ChainOp
  | chainIdQuery : ChainOp
  | sendTx (payload : StatePayload) : ChainOp
deriving DecidableEq, Repr

/-- Responses of the chain RPC endpoints, as an oracle: `none` models a
failing call; `sendOk = false` models a failing broadcast. -/
structure ChainOracle where
  pendingNonce : Option Nat
  estimateGas : Option Nat
  headerBaseFee : Option Nat
  gasTip : Option Nat
  chainIdent : Option Nat
  sendOk : Bool
deriving DecidableEq, Repr

/-- The EIP-1559 base-fee bump of `sendTransaction`
(`math.Round(float64(baseFee) * 1.25)`), over naturals. -/
def bumpBaseFee (baseFee : Nat) : Nat := (5 * baseFee + 2) / 4

/-- Transaction submission (`PublisherServer.sendTransaction`): fetch
the pending nonce, estimate gas for the payload, read the latest
header, compute EIP-1559 fees, query the tip and the chain id, sign and
broadcast. The performed chain interactions are returned as a trace;
each failing RPC call aborts with a `chainRpc` error naming it. -/
def sendTransaction (orc : ChainOracle) (payload : StatePayload) :
    Except PubErr String × List ChainOp :=
  match orc.pendingNonce with
  | none => (.error (.chainRpc "PendingNonceAt"), [.pendingNonce])
  | some nonce =>
    match orc.estimateGas with
    | none => (.error (.chainRpc "EstimateGas"), [.pendingNonce, .estimateGas payload])
    | some _gasLimit =>
      match orc.headerBaseFee with
      | none =>
        (.error (.chainRpc "HeaderByNumber"),
         [.pendingNonce, .estimateGas payload, .headerByNumber])
      | some baseFee =>
        let _maxFeeBase := bumpBaseFee baseFee
        match orc.gasTip with
        | none =>
          (.error (.chainRpc "SuggestGasTipCap"),
           [.pendingNonce, .estimateGas payload, .headerByNumber, .suggestGasTip])
        | some gasTip =>
          let _maxFeePerGas := bumpBaseFee baseFee + gasTip
          match orc.chainIdent with
          | none =>
            (.error (.chainRpc "ChainID"),
             [.pendingNonce, .estimateGas payload, .headerByNumber, .suggestGasTip,
              .chainIdQuery])
          | some _cid =>
            if orc.sendOk then
              (.ok ("tx-" ++ toString nonce),
               [.pendingNonce, .estimateGas payload, .headerByNumber, .suggestGasTip,
                .chainIdQuery, .sendTx payload])
            else
              (.error (.chainRpc "SendTransaction"),
               [.pendingNonce, .estimateGas payload, .headerByNumber, .suggestGasTip,
                .chainIdQuery, .sendTx payload])

/-- State publication (`PublisherServer.UpdateState`): rejects an
unchanged state first — before any chain interaction — then packs the
payload and submits it. The second component is the trace of chain
interactions performed. -/
def updateState (orc : ChainOracle) (ti : TransitionInfo) :
    Except PubErr String × List ChainOp :=
  if ti.newState = ti.latestState then (.error .stateUnchanged, [])
  else sendTransaction orc (getStatePayload ti)

/-- A transaction receipt; `status = 1` is inclusion success. -/
structure Receipt where
  status : Nat
deriving DecidableEq, Repr

/-- The successful receipt status (`types.ReceiptStatusSuccessful`). -/
def receiptStatusSuccess : Nat := 1

/-- Channel behaviour of `PublisherServer.WaitTransaction` as written:
the receipt is fetched once (no polling), the `done` channel is closed
only when that fetch errors, and a successful fetch never completes the
channel. The argument is the outcome of the single
`TransactionReceipt` call (`none` = fetch error); the result is whether
the `done` channel ever gets closed. -/
def waitTransactionCloses (receiptFetch : Option Receipt) : Bool :=
  match receiptFetch with
  | none => true
  | some _ => false

/-- Modelled from the spec: `wait` must poll receipts and complete
(close the channel) once the receipt reports success; a fetch failure
surfaces an error instead of completing (spec sections 4.7 and 9; the
compliant implementation exists nowhere in the repository). Stated over
the same single-fetch outcome for comparison with the source. -/
def waitSpecCloses (receiptFetch : Option Receipt) : Bool :=
  match receiptFetch with
  | none => false
  | some r => r.status == receiptStatusSuccess

/-- Error kinds of the outbound HTTP client: transport failure of `Do`,
request construction failure, body read failure, or a non-OK response
status carrying the status code and the body. -/
inductive HttpErr where
  | network : HttpErr
  | badRequest : HttpErr
  | readFailed : HttpErr
  | status (code : Nat) (body : String) : HttpErr
deriving DecidableEq, Repr

/-- An HTTP response as seen by the client: status code and body. -/
structure HttpResponse where
  statusCode : Nat
  body : String
deriving DecidableEq, Repr

/-- The OK status code (`http.StatusOK`). -/
def statusOK : Nat := 200

/-- Request execution (`http.executeRequest`): perform the request,
read the whole body, then return the body only when the status code is
exactly 200, and otherwise an error carrying the status code and the
body. `doResult` is the outcome of `c.base.Do` (`none` = transport
error); `readOk` injects the outcome of `io.ReadAll`. -/
def executeRequest (doResult : Option HttpResponse) (readOk : Bool) :
    Except HttpErr String :=
  match doResult with
  | none => .error .network
  | some resp =>
    if readOk then
      if resp.statusCode ≠ statusOK then .error (.status resp.statusCode resp.body)
      else .ok resp.body
    else .error .readFailed

/-- Outbound GET (`Client.Get`): build the request — `requestOk`
injects `http.NewRequestWithContext`'s outcome — then execute it. -/
def clientGet (requestOk : Bool) (doResult : Option HttpResponse) (readOk : Bool) :
    Except HttpErr String :=
  if requestOk then executeRequest doResult readOk else .error .badRequest

/-- Outbound POST (`Client.Post`): build the request — `requestOk`
injects `http.NewRequest`'s outcome — then execute it. -/
def clientPost (requestOk : Bool) (doResult : Option HttpResponse) (readOk : Bool) :
    Except HttpErr String :=
  if requestOk then executeRequest doResult readOk else .error .badRequest

/-- A concrete stand-in for Poseidon used by witnesses: an accumulating
fold, injective enough on the small inputs exercised. -/
def exH (l : List Nat) : Nat := l.foldl (fun a x => 31 * a + x + 1) (7 + l.length)

/-- Concrete external-library instance for witnesses. -/
def exExt : ExtLib :=
  { H := exH, pub := fun sk => (sk + 1, sk + 2), idGenesis := fun t st => 2 * st + t + 5 }

/-- A concrete identity construction over a fresh store of depth 16. -/
def exGen : Except Err (Identity × IdentityState) :=
  identityNew exExt 3 "u" (newIdentityState 16) true true

/-- The identity produced by `exGen`. -/
def exIden : Identity := (exGen.toOption.map Prod.fst).getD ⟨0, 0, 0, ""⟩

/-- The post-genesis state produced by `exGen`. -/
def exState0 : IdentityState :=
  (exGen.toOption.map Prod.snd).getD (newIdentityState 16)

/-- A concrete issuance request with revocation nonce 7. -/
def exReq : CreateClaimRequest :=
  { schemaUrl := "ipfs://QmDemo/kyc-age.json-ld", schemaType := "KYCAgeCredential"
    identifier := 11, expiration := 0, version := 0, revNonce := 7
    subjectPosition := "index", data := "birthday=19900101" }

/-- A concrete successful schema-processor outcome. -/
def exPr : ProcResult :=
  { encodedSchema := 123456789, slotIndexA := 19900101, slotIndexB := 1
    slotValueA := 0, slotValueB := 0 }

def exProc : Except Err ProcResult := .ok exPr

/-- The core claim generated from `exReq` / `exPr`. -/
def exCore : CoreClaim := generateCoreClaim (coreClaimDataOf exPr exReq)

/-- An all-default claim record, used as a lookup fallback in witnesses. -/
def nullClaimModel : ClaimModel :=
  { id := 0, revNonce := 0, identifier := 0, issuer := 0, schemaUrl := ""
    schemaType := "", credentialStatusUrl := "", sigProof := none
    mtpProof := false, data := "" }

/-- The stored auth-claim record of `exState0`. -/
def exAuthM : ClaimModel :=
  (exState0.getClaimDb exIden.authClaimId).toOption.getD nullClaimModel

/-- The state after inserting `exCore` into `exState0`'s Claims tree. -/
def exS1 : IdentityState :=
  (exState0.addClaimToTree exExt exCore).toOption.getD exState0

/-- A concrete issuance whose record-persistence step fails. -/
def exAddFail : Identity × IdentityState × Except Err String :=
  Identity.addClaim exExt exIden exState0 exReq exProc false true

/-- A concrete fully successful issuance. -/
def exAddOk : Identity × IdentityState × Except Err String :=
  Identity.addClaim exExt exIden exState0 exReq exProc true true

/-- A chain oracle whose every RPC call succeeds. -/
def orcEx : ChainOracle :=
  { pendingNonce := some 9, estimateGas := some 21000, headerBaseFee := some 100
    gasTip := some 2, chainIdent := some 80001, sendOk := true }

/-- A concrete proof triple with distinguishable coordinates. -/
def zkEx : ZKProof := { a := (1, 2), b := ((3, 4), (5, 6)), c := (7, 8) }

/-- A transition whose new state differs from the old state. -/
def tiEx : TransitionInfo :=
  { identifier := 77, latestState := 100, newState := 200
    isOldStateGenesis := false, proof := zkEx }

/-- A transition whose new state equals the old state. -/
def tiSame : TransitionInfo :=
  { identifier := 77, latestState := 100, newState := 100
    isOldStateGenesis := false, proof := zkEx }

/-- The claim record that `Identity.AddClaim` persists on success,
written out closed-form: identified by the claim's `h_index`, carrying
the request data, the credential status for the claim's own nonce, and
the signature proof whose revocation-status URL also uses the claim's
own nonce. -/
def issuedClaimModel (E : ExtLib) (iden : Identity) (req : CreateClaimRequest)
    (pr : ProcResult) (authM : ClaimModel) : ClaimModel :=
  { id := hIndex E (generateCoreClaim (coreClaimDataOf pr req))
    revNonce := req.revNonce
    identifier := iden.identifier, issuer := iden.identifier
    schemaUrl := req.schemaUrl, schemaType := req.schemaType
    credentialStatusUrl := createCredentialStatus iden.baseUrl req.revNonce
    sigProof := some { issuerAuthClaimId := authM.id
                       revocationStatusUrl := mkRevocationStatusUrl iden.baseUrl req.revNonce }
    mtpProof := false, data := req.data }

lemma addClaimToTree_ok {E : ExtLib} {s s1 : IdentityState} {c : CoreClaim}
    (h : s.addClaimToTree E c = .ok s1) :
    s1.revTree = s.revTree ∧ s1.rootsTree = s.rootsTree ∧
    s1.claimsDb = s.claimsDb ∧ s1.savedIdentifier = s.savedIdentifier := by
  unfold IdentityState.addClaimToTree at h
  cases ht : s.claimsTree.add (hIndex E c) (hValue E c) with
  | error e => rw [ht] at h; simp [Except.map] at h
  | ok t =>
    rw [ht] at h
    simp only [Except.map, Except.ok.injEq] at h
    subst h
    exact ⟨rfl, rfl, rfl, rfl⟩

lemma addClaim_fst (E : ExtLib) (i : Identity) (s : IdentityState)
    (req : CreateClaimRequest) (proc : Except Err ProcResult) (dbOk saveOk : Bool) :
    (Identity.addClaim E i s req proc dbOk saveOk).1 = i := by
  unfold Identity.addClaim
  cases proc with
  | error e => rfl
  | ok pr =>
    cases hga : s.getClaimDb i.authClaimId with
    | error e => simp [hga]
    | ok authM =>
      simp only [hga]
      cases hat : s.addClaimToTree E (generateCoreClaim (coreClaimDataOf pr req)) with
      | error e => simp [hat]
      | ok s1 =>
        simp only [hat]
        cases dbOk with
        | false => simp [IdentityState.addClaimToDb]
        | true =>
          cases saveOk with
          | false => simp [IdentityState.addClaimToDb, IdentityState.saveIdentity]
          | true => simp [IdentityState.addClaimToDb, IdentityState.saveIdentity]

lemma runStep_fst (E : ExtLib) (p : Identity × IdentityState) (st : Step) :
    (runStep E p st).1 = p.1 := by
  cases st with
  | issue req proc dbOk saveOk => simpa [runStep] using addClaim_fst E p.1 p.2 req proc dbOk saveOk
  | revokeNonce n v => rfl

lemma addClaim_ok_shape {E : ExtLib} {i i' : Identity} {s s' : IdentityState}
    {req : CreateClaimRequest} {pr : ProcResult} {dbOk saveOk : Bool} {r : String}
    (h : Identity.addClaim E i s req (.ok pr) dbOk saveOk = (i', s', .ok r)) :
    ∃ authM s1,
      s.getClaimDb i.authClaimId = .ok authM ∧
      s.addClaimToTree E (generateCoreClaim (coreClaimDataOf pr req)) = .ok s1 ∧
      i' = i ∧ dbOk = true ∧ saveOk = true ∧
      s' = { s1 with
             claimsDb := ((issuedClaimModel E i req pr authM).id,
                          issuedClaimModel E i req pr authM) :: s1.claimsDb
             savedIdentifier := some i.identifier } ∧
      r = toString (issuedClaimModel E i req pr authM).id := by
  unfold Identity.addClaim at h
  dsimp only at h
  cases hga : s.getClaimDb i.authClaimId with
  | error e => rw [hga] at h; simp at h
  | ok authM =>
    rw [hga] at h
    dsimp only at h
    cases hat : s.addClaimToTree E (generateCoreClaim (coreClaimDataOf pr req)) with
    | error e => rw [hat] at h; simp at h
    | ok s1 =>
      rw [hat] at h
      cases dbOk with
      | false => simp [IdentityState.addClaimToDb] at h
      | true =>
        cases saveOk with
        | false => simp [IdentityState.addClaimToDb, IdentityState.saveIdentity] at h
        | true =>
          simp only [IdentityState.addClaimToDb, IdentityState.saveIdentity,
            if_true, Prod.mk.injEq, Except.ok.injEq] at h
          obtain ⟨hi, hs, hr⟩ := h
          exact ⟨authM, s1, rfl, rfl, hi.symm, rfl, rfl, hs.symm, hr.symm⟩

lemma exceptBind_ok {α β : Type} (a : α) (f : α → Except Err β) :
    (Except.ok a >>= f) = f a := rfl

lemma exceptBind_err {α β : Type} (e : Err) (f : α → Except Err β) :
    ((Except.error e : Except Err α) >>= f) = .error e := rfl

lemma setupGenesisState_ok {E : ExtLib} {sk : Nat} {s s1 : IdentityState}
    {idf : Nat} {ac : CoreClaim}
    (h : setupGenesisState E sk s = .ok (idf, ac, s1)) :
    ac = newAuthClaim (E.pub sk) authBJJSchemaHash ∧
    s.addClaimToTree E (newAuthClaim (E.pub sk) authBJJSchemaHash) = .ok s1 ∧
    idf = E.idGenesis typeDefault (s1.getStateHash E) := by
  unfold setupGenesisState at h
  dsimp only at h
  cases hat : s.addClaimToTree E (newAuthClaim (E.pub sk) authBJJSchemaHash) with
  | error e => rw [hat, exceptBind_err] at h; exact absurd h (by simp)
  | ok t =>
    rw [hat, exceptBind_ok] at h
    simp only [Except.ok.injEq, Prod.mk.injEq] at h
    obtain ⟨h1, h2, h3⟩ := h
    exact ⟨h2.symm, by rw [h3], by rw [← h1, h3]⟩

lemma identityInit_ok {E : ExtLib} {sk : Nat} {baseUrl : String}
    {s s2 : IdentityState} {dbOk : Bool} {iden : Identity}
    (h : identityInit E sk baseUrl s dbOk = .ok (iden, s2)) :
    ∃ s1, s.addClaimToTree E (newAuthClaim (E.pub sk) authBJJSchemaHash) = .ok s1 ∧
      iden.sk = sk ∧ iden.baseUrl = baseUrl ∧
      iden.identifier = E.idGenesis typeDefault (s1.getStateHash E) ∧
      iden.authClaimId = hIndex E (newAuthClaim (E.pub sk) authBJJSchemaHash) ∧
      dbOk = true ∧
      s2.claimsTree = s1.claimsTree ∧ s2.revTree = s1.revTree ∧
      s2.rootsTree = s1.rootsTree := by
  unfold identityInit at h
  cases hg : setupGenesisState E sk s with
  | error e => rw [hg, exceptBind_err] at h; exact absurd h (by simp)
  | ok trip =>
    obtain ⟨idf, ac, s1⟩ := trip
    rw [hg, exceptBind_ok] at h
    obtain ⟨hac, hat, hid⟩ := setupGenesisState_ok hg
    dsimp only at h
    cases dbOk with
    | false =>
      rw [show (IdentityState.addClaimToDb _ _ false) = (.error .storeFail : Except Err IdentityState) from rfl,
        exceptBind_err] at h
      exact absurd h (by simp)
    | true =>
      rw [show ∀ st m, (IdentityState.addClaimToDb st m true) = .ok { st with claimsDb := (m.id, m) :: st.claimsDb } from fun _ _ => rfl,
        exceptBind_ok] at h
      dsimp only at h
      simp only [Except.ok.injEq, Prod.mk.injEq] at h
      obtain ⟨hiden, hs2⟩ := h
      subst hiden
      subst hs2
      exact ⟨s1, hat, rfl, rfl, by dsimp; rw [hid], by dsimp; rw [hac], rfl, rfl, rfl, rfl⟩

lemma identityNew_ok {E : ExtLib} {sk : Nat} {baseUrl : String}
    {s s' : IdentityState} {dbOk saveOk : Bool} {iden : Identity}
    (h : identityNew E sk baseUrl s dbOk saveOk = .ok (iden, s')) :
    ∃ s2, identityInit E sk baseUrl s dbOk = .ok (iden, s2) ∧ saveOk = true ∧
      s'.claimsTree = s2.claimsTree ∧ s'.revTree = s2.revTree ∧
      s'.rootsTree = s2.rootsTree ∧ s'.claimsDb = s2.claimsDb := by
  unfold identityNew at h
  cases hi : identityInit E sk baseUrl s dbOk with
  | error e => rw [hi, exceptBind_err] at h; exact absurd h (by simp)
  | ok p =>
    obtain ⟨iden0, s2⟩ := p
    rw [hi, exceptBind_ok] at h
    dsimp only at h
    cases saveOk with
    | false =>
      rw [show (IdentityState.saveIdentity _ _ false) = (.error .storeFail : Except Err IdentityState) from rfl,
        exceptBind_err] at h
      exact absurd h (by simp)
    | true =>
      rw [show ∀ st n, (IdentityState.saveIdentity st n true) = .ok { st with savedIdentifier := some n } from fun _ _ => rfl,
        exceptBind_ok] at h
      simp only [Except.ok.injEq, Prod.mk.injEq] at h
      obtain ⟨hiden, hs⟩ := h
      subst hiden
      subst hs
      exact ⟨s2, rfl, rfl, rfl, rfl, rfl, rfl⟩

lemma sendTransaction_not_stateUnchanged (orc : ChainOracle) (p : StatePayload) :
    (sendTransaction orc p).1 ≠ .error .stateUnchanged := by
  rcases orc with ⟨n, g, hb, t, c, sok⟩
  cases n <;> cases g <;> cases hb <;> cases t <;> cases c <;> cases sok <;>
    simp [sendTransaction]

/-- C1 counterexample: a concrete `AddClaim` call whose record-persist
step fails after the in-memory Claims-tree update returns with a state
whose hash differs from the pre-call state hash — the engine did not
restore the prior roots, refuting the claimed equality. -/
theorem c1_rollback_counterexample :
    exAddFail.2.2 = .error Err.storeFail ∧
    exAddFail.2.1.getStateHash exExt ≠ exState0.getStateHash exExt := by
  decide

/-- C1 as amended: when the record-persist step of `Identity.AddClaim`
fails after the Claims-tree insertion succeeded, the call returns the
`storeFail` error together with the tree-updated state `s1` unchanged —
no prior root pointer is restored, so the post-call state is exactly
the post-insertion state. -/
theorem c1_no_rollback_on_record_failure (E : ExtLib) (i : Identity)
    (s s1 : IdentityState) (req : CreateClaimRequest) (pr : ProcResult)
    (saveOk : Bool) (authM : ClaimModel)
    (hauth : s.getClaimDb i.authClaimId = .ok authM)
    (htree : s.addClaimToTree E (generateCoreClaim (coreClaimDataOf pr req)) = .ok s1) :
    Identity.addClaim E i s req (.ok pr) false saveOk = (i, s1, .error Err.storeFail) := by
  unfold Identity.addClaim
  dsimp only
  rw [hauth]
  dsimp only
  rw [htree]
  rfl

/-- C1 witness: the amended no-rollback behaviour at the concrete
failing insertion. -/
theorem c1_no_rollback_witness :
    Identity.addClaim exExt exIden exState0 exReq (.ok exPr) false true =
      (exIden, exS1, .error Err.storeFail) :=
  c1_no_rollback_on_record_failure exExt exIden exState0 exS1 exReq exPr true
    exAuthM (by decide) (by decide)

/-- C2 counterexample: a concrete fully successful insertion sequence
(genesis auth-claim insertion followed by one successful `AddClaim`)
after which the Roots tree is still the empty tree: it contains no
entry at index 0 and does not record the (nonzero-rooted) Claims-tree
history, refuting the claim that every successful insertion appends the
Claims root to the Roots tree. -/
theorem c2_roots_counterexample :
    exGen.isOk = true ∧ exAddOk.2.2.isOk = true ∧
    exAddOk.2.1.rootsTree.node = Node.empty ∧
    exAddOk.2.1.rootsTree.get 0 = none ∧
    exAddOk.2.1.claimsTree.root exExt.H ≠ 0 := by
  decide

/-- C2 as amended: claim insertion touches only the Claims tree and the
record store — `AddClaimToTree` calls only the Claims component — so
`Identity.AddClaim` leaves the Roots tree (and the Revocations tree) of
the state exactly as they were, on success and on failure alike; no
historical Claims root is ever appended. -/
theorem c2_insertion_never_writes_roots_tree (E : ExtLib) (i : Identity)
    (s : IdentityState) (req : CreateClaimRequest) (proc : Except Err ProcResult)
    (dbOk saveOk : Bool) :
    (Identity.addClaim E i s req proc dbOk saveOk).2.1.rootsTree = s.rootsTree ∧
    (Identity.addClaim E i s req proc dbOk saveOk).2.1.revTree = s.revTree := by
  unfold Identity.addClaim
  cases proc with
  | error e => exact ⟨rfl, rfl⟩
  | ok pr =>
    dsimp only
    cases hga : s.getClaimDb i.authClaimId with
    | error e => exact ⟨rfl, rfl⟩
    | ok authM =>
      dsimp only
      cases hat : s.addClaimToTree E (generateCoreClaim (coreClaimDataOf pr req)) with
      | error e => exact ⟨rfl, rfl⟩
      | ok s1 =>
        obtain ⟨hrev, hroots, -, -⟩ := addClaimToTree_ok hat
        cases dbOk with
        | false => exact ⟨hroots, hrev⟩
        | true =>
          cases saveOk with
          | false => exact ⟨hroots, hrev⟩
          | true => exact ⟨hroots, hrev⟩

/-- C2 amended-claim witness at the concrete successful insertion. -/
theorem c2_roots_untouched_witness :
    (Identity.addClaim exExt exIden exState0 exReq exProc true true).2.1.rootsTree =
      exState0.rootsTree :=
  (c2_insertion_never_writes_roots_tree exExt exIden exState0 exReq exProc true true).1

/-- C3: identity creation over an empty store is deterministic. On any
successful `identity.New` run over a fresh store, the genesis state
hash equals `Poseidon(root_claims_after_auth_claim, 0, 0)` (the
Revocations and Roots trees are still empty, their roots 0), the
identifier equals `genesis(type_default, state_hash)`, and any second
successful run with the same secret key over an equally fresh store
yields a bitwise-equal identifier. -/
theorem c3_genesis_deterministic (E : ExtLib) (sk : Nat) (baseUrl : String)
    (D : Nat) (dbOk saveOk : Bool) (iden : Identity) (s' : IdentityState)
    (h : identityNew E sk baseUrl (newIdentityState D) dbOk saveOk = .ok (iden, s')) :
    s'.getStateHash E = E.H [s'.claimsTree.root E.H, 0, 0] ∧
    iden.identifier = E.idGenesis typeDefault (s'.getStateHash E) ∧
    (∀ iden2 s2, identityNew E sk baseUrl (newIdentityState D) dbOk saveOk = .ok (iden2, s2) →
      iden2.identifier = iden.identifier) := by
  obtain ⟨t2, hinit, -, hc, hr, ho, -⟩ := identityNew_ok h
  obtain ⟨t1, hat, -, -, hident, -, -, hc2, hr2, ho2⟩ := identityInit_ok hinit
  obtain ⟨hrev1, hroots1, -, -⟩ := addClaimToTree_ok hat
  have hstate : s'.getStateHash E = E.H [s'.claimsTree.root E.H, 0, 0] := by
    unfold IdentityState.getStateHash
    rw [hr, hr2, hrev1, ho, ho2, hroots1]
    rfl
  refine ⟨hstate, ?_, ?_⟩
  · rw [hident]
    have : t1.getStateHash E = s'.getStateHash E := by
      unfold IdentityState.getStateHash
      rw [hr, hr2, ho, ho2, hc, hc2]
    rw [this]
  · intro iden2 s2 h2
    rw [h] at h2
    simp only [Except.ok.injEq, Prod.mk.injEq] at h2
    rw [h2.1]

/-- C3 witness: the genesis properties at the concrete run `exGen`. -/
theorem c3_genesis_witness :
    exState0.getStateHash exExt = exExt.H [exState0.claimsTree.root exExt.H, 0, 0] ∧
    exIden.identifier = exExt.idGenesis typeDefault (exState0.getStateHash exExt) :=
  ⟨(c3_genesis_deterministic exExt 3 "u" 16 true true exIden exState0 (by decide)).1,
   (c3_genesis_deterministic exExt 3 "u" 16 true true exIden exState0 (by decide)).2.1⟩

/-- C4: the value returned by `GetStateHash` after a successful mutation
(a claim insertion or a revocation) is exactly
`Poseidon(root_claims, root_revocations, root_roots)` over the three
tree roots of the mutated state: `GetStateHash` recomputes the hash
from the current roots and caches nothing. -/
theorem c4_state_hash_after_mutation (E : ExtLib) (i i' : Identity)
    (s sIns sRev : IdentityState) (req : CreateClaimRequest)
    (proc : Except Err ProcResult) (dbOk saveOk : Bool) (r : String) (n v : Nat)
    (_hins : Identity.addClaim E i s req proc dbOk saveOk = (i', sIns, .ok r))
    (_hrev : s.revoke n v = (sRev, .ok ())) :
    sIns.getStateHash E =
      E.H [sIns.claimsTree.root E.H, sIns.revTree.root E.H, sIns.rootsTree.root E.H] ∧
    sRev.getStateHash E =
      E.H [sRev.claimsTree.root E.H, sRev.revTree.root E.H, sRev.rootsTree.root E.H] :=
  ⟨rfl, rfl⟩

/-- C4 witness: both mutations succeed on the concrete post-genesis
state and the returned hash matches the Poseidon of the three roots. -/
theorem c4_state_hash_witness :
    exAddOk.2.1.getStateHash exExt =
      exExt.H [exAddOk.2.1.claimsTree.root exExt.H, exAddOk.2.1.revTree.root exExt.H,
        exAddOk.2.1.rootsTree.root exExt.H] ∧
    (exState0.revoke 7 0).1.getStateHash exExt =
      exExt.H [(exState0.revoke 7 0).1.claimsTree.root exExt.H,
        (exState0.revoke 7 0).1.revTree.root exExt.H,
        (exState0.revoke 7 0).1.rootsTree.root exExt.H] :=
  c4_state_hash_after_mutation exExt exIden exIden exState0 exAddOk.2.1
    (exState0.revoke 7 0).1 exReq exProc true true
    (match exAddOk.2.2 with | .ok r => r | .error _ => "") 7 0
    (by decide) (by decide)

/-- C5: the identifier is immutable after genesis — for every sequence
of `AddClaim` and `Revoke` calls (succeeding or failing), the identity
observed after running the sequence carries a bitwise-equal identifier
to the one observed before: no mutation path ever writes the
`Identifier` field. -/
theorem c5_identifier_immutable (E : ExtLib) (p : Identity × IdentityState)
    (steps : List Step) :
    (steps.foldl (runStep E) p).1.identifier = p.1.identifier := by
  induction steps generalizing p with
  | nil => rfl
  | cons st rest ih =>
    rw [List.foldl_cons, ih (runStep E p st), runStep_fst]

/-- C5 witness: a concrete mixed sequence of issuance and revocation
leaves the concrete identity's identifier unchanged. -/
theorem c5_identifier_witness :
    (([Step.issue exReq exProc true true, Step.revokeNonce 7 0].foldl
        (runStep exExt) (exIden, exState0)).1.identifier = exIden.identifier) :=
  c5_identifier_immutable exExt (exIden, exState0)
    [Step.issue exReq exProc true true, Step.revokeNonce 7 0]

/-- C6 counterexample: on the concrete successful issuance with request
revocation nonce 7, the revocation-status URL attached to the signature
proof ends in `/7` — the issued claim's own nonce — while the auth
claim's revocation nonce is 0, so the URL is not the one built from the
auth claim's nonce as the claim states. -/
theorem c6_revocation_url_counterexample :
    exAddOk.2.2.isOk = true ∧
    (exAddOk.2.1.claimsDb.head?.map (fun q => q.2.sigProof)) =
      some (some { issuerAuthClaimId := exIden.authClaimId
                   revocationStatusUrl := mkRevocationStatusUrl "u" 7 }) ∧
    (newAuthClaim (exExt.pub 3) authBJJSchemaHash).revNonce = 0 ∧
    mkRevocationStatusUrl "u" 7 ≠ mkRevocationStatusUrl "u" 0 := by
  decide

/-- C6 as amended: for every successful `AddClaim`, the signature proof
persisted with the issued credential carries the revocation-status URL
`<base_url>/api/v1/claims/revocation/status/<nonce>` where `nonce` is
the newly issued claim's revocation nonce (the request's `RevNonce`),
not the auth claim's. -/
theorem c6_revocation_url_uses_new_claim_nonce (E : ExtLib) (i i' : Identity)
    (s s' : IdentityState) (req : CreateClaimRequest) (pr : ProcResult)
    (dbOk saveOk : Bool) (r : String)
    (h : Identity.addClaim E i s req (.ok pr) dbOk saveOk = (i', s', .ok r)) :
    ∃ m rest p, s'.claimsDb = (m.id, m) :: rest ∧ m.sigProof = some p ∧
      p.revocationStatusUrl = mkRevocationStatusUrl i.baseUrl req.revNonce ∧
      m.revNonce = req.revNonce := by
  obtain ⟨authM, s1, -, -, -, -, -, hs, -⟩ := addClaim_ok_shape h
  refine ⟨issuedClaimModel E i req pr authM, s1.claimsDb,
    { issuerAuthClaimId := authM.id
      revocationStatusUrl := mkRevocationStatusUrl i.baseUrl req.revNonce },
    ?_, rfl, rfl, rfl⟩
  rw [hs]

/-- C6 amended-claim witness at the concrete successful issuance. -/
theorem c6_revocation_url_witness :
    ∃ m rest p,
      (Identity.addClaim exExt exIden exState0 exReq (.ok exPr) true true).2.1.claimsDb =
        (m.id, m) :: rest ∧
      m.sigProof = some p ∧
      p.revocationStatusUrl = mkRevocationStatusUrl exIden.baseUrl exReq.revNonce ∧
      m.revNonce = exReq.revNonce :=
  c6_revocation_url_uses_new_claim_nonce exExt exIden
    (Identity.addClaim exExt exIden exState0 exReq (.ok exPr) true true).1
    exState0
    (Identity.addClaim exExt exIden exState0 exReq (.ok exPr) true true).2.1
    exReq exPr true true
    (match (Identity.addClaim exExt exIden exState0 exReq (.ok exPr) true true).2.2 with
      | .ok r => r | .error _ => "")
    (by decide)

/-- C7: for every transition, the payload the publisher ABI-encodes
targets the `transitState` method and its `b` parameter is the
coordinate-swapped matrix `[[b[0][1], b[0][0]], [b[1][1], b[1][0]]]` of
the input proof; and whenever the new state differs from the old one,
`UpdateState` submits exactly this payload. -/
theorem c7_payload_swaps_proof_b (ti : TransitionInfo) (orc : ChainOracle) :
    (getStatePayload ti).method = "transitState" ∧
    (getStatePayload ti).proofB = swapBSpec ti.proof.b ∧
    (ti.newState ≠ ti.latestState →
      updateState orc ti = sendTransaction orc (getStatePayload ti)) := by
  refine ⟨rfl, rfl, fun h => ?_⟩
  unfold updateState
  rw [if_neg h]

/-- C7 witness: the swap at the concrete proof `zkEx` inside a concrete
state-changing transition. -/
theorem c7_payload_swap_witness :
    (getStatePayload tiEx).proofB = ((4, 3), (6, 5)) ∧
    updateState orcEx tiEx = sendTransaction orcEx (getStatePayload tiEx) :=
  ⟨(c7_payload_swaps_proof_b tiEx orcEx).2.1,
   (c7_payload_swaps_proof_b tiEx orcEx).2.2 (by decide)⟩

/-- C8: `UpdateState` fails with `StateUnchanged` exactly when the new
state equals the old state, and in that case it performs no chain
interaction at all — the trace of chain operations is empty: no nonce
fetch, gas estimation, header read, tip query, chain-id query, or
broadcast happens. -/
theorem c8_state_unchanged_no_chain_io (orc : ChainOracle) (ti : TransitionInfo) :
    ((updateState orc ti).1 = .error PubErr.stateUnchanged ↔
      ti.newState = ti.latestState) ∧
    (ti.newState = ti.latestState → updateState orc ti = (.error PubErr.stateUnchanged, [])) := by
  constructor
  · constructor
    · intro h
      by_contra hne
      unfold updateState at h
      rw [if_neg hne] at h
      exact sendTransaction_not_stateUnchanged orc (getStatePayload ti) h
    · intro he
      unfold updateState
      rw [if_pos he]
  · intro he
    unfold updateState
    rw [if_pos he]

/-- C8 witness: at the concrete oracle, the unchanged transition fails
`StateUnchanged` with an empty chain trace, and the changed transition
does not fail `StateUnchanged`. -/
theorem c8_state_unchanged_witness :
    (updateState orcEx tiSame).1 = .error PubErr.stateUnchanged ∧
    (updateState orcEx tiSame).2 = [] ∧
    (updateState orcEx tiEx).1 ≠ .error PubErr.stateUnchanged := by
  refine ⟨(c8_state_unchanged_no_chain_io orcEx tiSame).1.mpr rfl, ?_, fun hc => ?_⟩
  · rw [(c8_state_unchanged_no_chain_io orcEx tiSame).2 rfl]
  · exact absurd ((c8_state_unchanged_no_chain_io orcEx tiEx).1.mp hc) (by decide)

/-- C9: evaluation of `WaitTransaction` as written against the spec's
required behaviour at the failing input — a transaction whose single
receipt fetch succeeds with the success status. The code never closes
the `done` channel there (it closes it only when the fetch errors),
while the specified behaviour completes on exactly that input. -/
theorem c9_wait_transaction_divergence :
    waitTransactionCloses (some { status := receiptStatusSuccess }) = false ∧
    waitSpecCloses (some { status := receiptStatusSuccess }) = true ∧
    waitTransactionCloses none = true ∧
    waitSpecCloses none = false := by
  decide

/-- C10: for every response the outbound client's `Get` and `Post`
return the response body exactly when the status code is 200, and any
other status code — including other 2xx codes — is returned as an
error carrying the status code and the body. -/
theorem c10_only_status_200_succeeds (resp : HttpResponse) :
    (clientGet true (some resp) true = .ok resp.body ↔ resp.statusCode = 200) ∧
    (clientPost true (some resp) true = .ok resp.body ↔ resp.statusCode = 200) ∧
    (resp.statusCode ≠ 200 →
      clientGet true (some resp) true = .error (.status resp.statusCode resp.body) ∧
      clientPost true (some resp) true = .error (.status resp.statusCode resp.body)) := by
  unfold clientGet clientPost executeRequest statusOK
  by_cases h : resp.statusCode = 200 <;> simp [h]

/-- C10 witness: a 201 response errors carrying status and body; a 200
response returns the body. -/
theorem c10_status_witness :
    clientGet true (some { statusCode := 201, body := "created" }) true =
      .error (.status 201 "created") ∧
    clientPost true (some { statusCode := 200, body := "okbody" }) true = .ok "okbody" :=
  ⟨((c10_only_status_200_succeeds { statusCode := 201, body := "created" }).2.2
      (by decide)).1,
   (c10_only_status_200_succeeds { statusCode := 200, body := "okbody" }).2.1.mpr rfl⟩
